import Mathlib

/-!
Shallow embedding of `src/govready-q/download/release-grq.py`, the
GovReady-Q release publisher assistant script, together with proofs of the
testable properties of its specification.

The script resolves the latest release from a metadata endpoint, downloads
the `.zip` and `.tar.gz` archives, checksums and sizes each one, and renders
an HTML table row per artifact.  Network responses, the filesystem and the
external-process runner are modelled as explicit parameters (an `Env`
record); Python exceptions become an explicit `PyError` sum propagated in
`Except`, with the `except` clauses of `main` modelled by `handleError`.
-/

set_option autoImplicit false
set_option linter.unusedVariables false

namespace ReleaseGrq

/-- Raw response bodies (`downloaded_obj.content`) are byte strings. -/
abbrev Bytes := List Nat

/-- The local filesystem: a map from filename to file bytes.  `main` runs in
a single working directory, so plain filenames are the keys. -/
abbrev FileSystem := String → Option Bytes

/-- An HTTP response as seen by `requests.get` on an artifact URL:
its status code and raw body. -/
structure Response where
  status_code : Nat
  content : Bytes
deriving Repr, DecidableEq

/-- The response of the metadata endpoint (`RELEASE_INFO`).  `jsonBody`
models `r.json()` followed by the `html_url` lookup: `.error ()` when the
body is not valid JSON (so `r.json()` raises), `.ok none` when the JSON has
no `html_url` key (so the subscript raises `KeyError`), `.ok (some u)` when
`html_url` is present with value `u`. -/
structure MetaResponse where
  status_code : Nat
  jsonBody : Except Unit (Option String)
deriving Repr

/-- The result object of `subprocess.run`: a `CompletedProcess` with the
command, the exit code, and the captured `stdout`/`stderr` (`none` when the
stream was not captured, as Python leaves the attribute `None`). -/
structure CompletedProcess where
  args : List String
  returncode : Int
  stdout : Option String
  stderr : Option String
deriving Repr, DecidableEq

/-- What the operating system does with one external-process invocation:
either the process completes with an exit code and output streams, or it
exceeds the timeout (`subprocess.TimeoutExpired`). -/
inductive ProcOutcome where
  | completed (returncode : Int) (stdout : String) (stderr : String)
  | timedOut
deriving Repr, DecidableEq

/-- The Python exceptions that can escape the `try` block of `main`,
as classified by its `except` clauses. -/
inductive PyError where
  /-- `requests.get` raised (network failure). -/
  | requestException
  /-- `release_info` referenced before assignment (status was not 200, so
  the `if` branch at line 139 never bound it; line 146 then raises). -/
  | unboundLocal
  /-- `r.json()` raised on a malformed body. -/
  | jsonDecodeError
  /-- `release_info` has no `html_url` key. -/
  | keyError
  /-- `os.path.getsize` raised on a missing file. -/
  | osError
  /-- `None.decode(...)`: `p.stdout` was not captured. -/
  | attributeError
  /-- `raise ReturncodeNonZeroError(p)` at line 173; the payload is the
  `CompletedProcess` stored as `self.completed_process`. -/
  | returncodeNonZero (completed_process : CompletedProcess)
  /-- `subprocess.TimeoutExpired` with `err.cmd` and `err.timeout`. -/
  | timeoutExpired (cmd : List String) (timeout : Nat)
  /-- `HaltedError`. -/
  | halted (msg : String)
  /-- `FatalError`. -/
  | fatal (msg : String)
deriving Repr, DecidableEq

/-- Python `str.split(sep)` for a one-character separator, on character
lists.  Always returns a non-empty list; empty fields are kept, and the
empty string splits to `[""]`. -/
def pySplit (sep : Char) : List Char → List (List Char)
  | [] => [[]]
  | c :: cs =>
    if c = sep then [] :: pySplit sep cs
    else
      match pySplit sep cs with
      | t :: ts => (c :: t) :: ts
      | [] => [[c]]

/-- Python `str.replace(old, new)` for one-character arguments. -/
def pyReplace (old new : Char) (s : List Char) : List Char :=
  s.map fun c => if c = old then new else c

/-- Python `url.split(\x27/\x27)[-1]`: the last `/`-delimited segment. -/
def pyLastSegment (s : String) : String :=
  ((pySplit '/' s.toList).getLastD []).asString

/-- Python `s.split(" ")[0]`: the prefix of `s` before its first space. -/
def pyFirstSpaceField (s : String) : String :=
  ((pySplit ' ' s.toList).headD []).asString

/-- Constant `RELEASE_INFO` (line 48): the metadata endpoint URL. -/
def RELEASE_INFO : String :=
  "https://api.github.com/repos/govready/govready-q/releases/latest"

/-- Constant `RELEASE_TAG_URL` (line 49): the archive base URL. -/
def RELEASE_TAG_URL : String :=
  "https://github.com/GovReady/govready-q/archive/refs/tags/"

/-- The parsed command-line arguments (`init_argparse`, lines 73-80),
with the defaults argparse assigns. -/
structure Args where
  non_interactive : Bool := false
  timeout : Nat := 120
  user : Bool := false
  verbose : Nat := 0
  docker : Bool := false
deriving Repr, DecidableEq

/-- The external world one run interacts with: the metadata endpoint, the
artifact endpoints, and the process runner of the operating system (a function
of the command and the timeout). -/
structure Env where
  metaResp : Except Unit MetaResponse
  artifactNet : String → Except Unit Response
  sys : List String → Nat → ProcOutcome

/-- Line 121 of `download`:
`filename = "govready-q-" + url.split(\x27/\x27)[-1].replace(" ", "_")`. -/
def downloadFilename (url : String) : String :=
  "govready-q-" ++ (pyReplace ' ' '_' (pyLastSegment url).toList).asString

/-- `download(url)` (lines 118-127): fetch `url`, write the body to the
derived filename, return the filename.  The status code of the response is
never inspected; only an exception from `requests.get` itself propagates. -/
def download (net : String → Except Unit Response) (fs : FileSystem)
    (url : String) : Except PyError (String × FileSystem) :=
  let filename := downloadFilename url
  match net url with
  | .error _ => .error .requestException
  | .ok downloaded_obj =>
      .ok (filename, fun n => if n = filename then some downloaded_obj.content else fs n)

/-- `os.path.getsize(file)` (line 161) against the modelled filesystem:
the byte length of the file, or `OSError` when it does not exist. -/
def getsize (fs : FileSystem) (file : String) : Except PyError Nat :=
  match fs file with
  | none => .error .osError
  | some b => .ok b.length

/-- `run_optionally_verbose(args, timeout, verbose_flag)` (lines 88-96).
With a truthy verbose flag the process streams to the console, so neither
`stdout` nor `stderr` is captured; otherwise both are piped.  A
`subprocess.TimeoutExpired` escapes as `timeoutExpired args timeout`. -/
def run_optionally_verbose (sys : List String → Nat → ProcOutcome)
    (args : List String) (timeout : Nat) (verbose_flag : Nat) :
    Except PyError CompletedProcess :=
  match sys args timeout with
  | .timedOut => .error (.timeoutExpired args timeout)
  | .completed rc out err =>
      if verbose_flag ≠ 0 then
        .ok { args := args, returncode := rc, stdout := none, stderr := none }
      else
        .ok { args := args, returncode := rc, stdout := some out, stderr := some err }

/-- Lines 166-169: the checksum command, with `--user` inserted when the
`--user` flag was given. -/
def get_checksum_cmd (user : Bool) (file : String) : List String :=
  if user then ["shasum", "-a", "256", "--user", file]
  else ["shasum", "-a", "256", file]

/-- Line 175: `checksum = p.stdout.decode(encoding=\x27UTF-8\x27).split(" ")[0]`.
When `stdout` was not captured it is `None` and `.decode` raises
`AttributeError`. -/
def checksumFromStdout (stdout : Option String) : Except PyError String :=
  match stdout with
  | none => .error .attributeError
  | some s => .ok (pyFirstSpaceField s)

/-- Lines 138-149: fetch the metadata, bind `release_info` only when the
status is 200 (else only a note is printed and the name stays unbound),
then read `release_info[\x27html_url\x27]` and take its last `/` segment. -/
def resolveReleaseName (metaResp : Except Unit MetaResponse) :
    Except PyError String :=
  match metaResp with
  | .error _ => .error .requestException
  | .ok r =>
      match (if r.status_code = 200 then some r.jsonBody else none) with
      | none => .error .unboundLocal
      | some (.error _) => .error .jsonDecodeError
      | some (.ok none) => .error .keyError
      | some (.ok (some html_url)) => .ok (pyLastSegment html_url)

/-- Line 155: `url = RELEASE_TAG_URL + release_name + ext`. -/
def buildUrl (release_name ext : String) : String :=
  RELEASE_TAG_URL ++ release_name ++ ext

/-- The fields interpolated into `html_block` (lines 179-186) for one
artifact: the release name, the rendered filename
`govready-q-{release_name}{ext}`, the checksum, and the size. -/
structure Row where
  release : String
  filename : String
  checksum : String
  size : Nat
deriving Repr, DecidableEq

/-- One iteration of the `for ext in [...]` loop (lines 153-191): download
the artifact, read its size, run the checksum command, raise
`ReturncodeNonZeroError` on a non-zero exit code, extract the checksum from
the captured stdout, and render the row. -/
def processExt (args : Args) (env : Env) (release_name ext : String)
    (fs : FileSystem) : Except PyError (FileSystem × Row) :=
  let url := buildUrl release_name ext
  match download env.artifactNet fs url with
  | .error e => .error e
  | .ok (file, fs2) =>
      match getsize fs2 file with
      | .error e => .error e
      | .ok size =>
          let get_checksum := get_checksum_cmd args.user file
          match run_optionally_verbose env.sys get_checksum args.timeout args.verbose with
          | .error e => .error e
          | .ok p =>
              if p.returncode ≠ 0 then .error (.returncodeNonZero p)
              else
                match checksumFromStdout p.stdout with
                | .error e => .error e
                | .ok checksum =>
                    .ok (fs2,
                      { release := release_name,
                        filename := "govready-q-" ++ release_name ++ ext,
                        checksum := checksum,
                        size := size })

/-- Line 153: the fixed, ordered list of artifact extensions. -/
def extensions : List String := [".zip", ".tar.gz"]

/-- The loop over extensions: strictly sequential, aborting on the first
error (the single `try` boundary has no per-artifact isolation). -/
def processExts (args : Args) (env : Env) (release_name : String) :
    List String → FileSystem → Except PyError (FileSystem × List Row)
  | [], fs => .ok (fs, [])
  | ext :: rest, fs =>
      match processExt args env release_name ext fs with
      | .error e => .error e
      | .ok (fs2, row) =>
          match processExts args env release_name rest fs2 with
          | .error e => .error e
          | .ok (fs3, rows) => .ok (fs3, row :: rows)

/-- The body of the `try` block of `main` (lines 132-206). -/
def mainBody (args : Args) (env : Env) (fs : FileSystem) :
    Except PyError (FileSystem × List Row) :=
  match resolveReleaseName env.metaResp with
  | .error e => .error e
  | .ok release_name => processExts args env release_name extensions fs

/-- The `except` clauses of `main` (lines 208-234): every classified error
writes a diagnostic and calls `sys.exit(1)`; the final `except Exception`
catch-all (lines 232-234) also exits 1. -/
def handleError : PyError → Nat
  | .returncodeNonZero _ => 1
  | .timeoutExpired _ _ => 1
  | .halted _ => 1
  | .fatal _ => 1
  | _ => 1

/-- The process exit code of one uninterrupted run: `main` falls off the
`try` block and returns `None` on success (so `exit(main())` exits 0), and
every `except` clause exits 1. -/
def mainExit (args : Args) (env : Env) (fs : FileSystem) : Nat :=
  match mainBody args env fs with
  | .ok _ => 0
  | .error e => handleError e

/-- Line 53: the `SIGINT` handler
`lambda signal_number, current_stack_frame: sys.exit(0)`.  It ignores both
arguments, so it exits 0 from whatever stack frame the interrupt lands in;
`SystemExit` derives from `BaseException`, which no `except` clause of
`main` catches, so the code reaches the process boundary unchanged. -/
def sigintHandlerExit {Frame : Type} (signal_number : Nat)
    (current_stack_frame : Frame) : Nat :=
  0

/-- The process exit code of a run, with `interrupted = true` when the
operator sent `SIGINT` at some point of execution. -/
def processExitCode (interrupted : Bool) (args : Args) (env : Env)
    (fs : FileSystem) : Nat :=
  if interrupted then sigintHandlerExit 2 () else mainExit args env fs

/-- Line 219: the `TimeoutExpired` diagnostic, with `{:.1f}` applied to the
integer timeout rendering as the digits followed by `.0`. -/
def timeoutFatalMessage (cmdDisplay : String) (timeout : Nat) : String :=
  "\n\nFatal error, exiting: external program or script " ++ cmdDisplay ++
    " took longer than " ++ (toString timeout ++ ".0") ++ " seconds.\n\n"

/-- Line 220: the remediation value `max(args.timeout+120, 600)`. -/
def timeoutSuggestion (argsTimeout : Nat) : Nat :=
  max (argsTimeout + 120) 600

/-- Line 220: the remediation line
`"Suggested fix: run again with \x27--timeout {}\x27."`. -/
def timeoutSuggestionMessage (argsTimeout : Nat) : String :=
  "Suggested fix: run again with \x27--timeout " ++
    toString (timeoutSuggestion argsTimeout) ++ "\x27.\n\n"

/-! ### Observation helpers for results whose payload contains a function -/

/-- Whether a `download` call succeeded. -/
def dlIsOk (r : Except PyError (String × FileSystem)) : Bool :=
  match r with
  | .ok _ => true
  | .error _ => false

/-- The bytes of `name` on the filesystem a `download` call returned. -/
def dlFileContent (r : Except PyError (String × FileSystem)) (name : String) :
    Option Bytes :=
  match r with
  | .ok (_, fs) => fs name
  | .error _ => none

/-- The error a `mainBody` run ended in, if any. -/
def bodyErr (r : Except PyError (FileSystem × List Row)) : Option PyError :=
  match r with
  | .error e => some e
  | .ok _ => none

/-! ### Concrete runs used as witnesses and counterexamples -/

/-- The empty working directory. -/
def emptyFS : FileSystem := fun _ => none

/-- The command-line arguments of a plain invocation. -/
def defaultArgs : Args := {}

/-- The arguments of a `--verbose` invocation. -/
def verboseArgs : Args := { verbose := 1 }

/-- A small error page body, standing for the body of a 404 answer. -/
def errorBody : Bytes := [60, 104, 116, 109, 108, 62]

/-- An artifact endpoint that answers every URL with status 404 and an
error page body. -/
def net404 : String → Except Unit Response :=
  fun _ => .ok { status_code := 404, content := errorBody }

/-- A metadata response with the given status code and a JSON body whose
`html_url` points at release `1.2.3`. -/
def goodMeta (code : Nat) : MetaResponse :=
  { status_code := code,
    jsonBody := .ok (some "https://github.com/x/y/releases/tag/1.2.3") }

/-- A small artifact body. -/
def artifactBody : Bytes := [1, 2, 3]

/-- An artifact endpoint that answers every URL with status 200 and
`artifactBody`. -/
def netOk : String → Except Unit Response :=
  fun _ => .ok { status_code := 200, content := artifactBody }

/-- An environment whose metadata endpoint answers with the given status
code and a JSON body carrying `html_url`. -/
def metaEnv (code : Nat) : Env :=
  { metaResp := .ok (goodMeta code),
    artifactNet := net404,
    sys := fun _ _ => .completed 0 "abcd1234  file\n" "" }

/-- An environment in which every step succeeds. -/
def env_ok : Env :=
  { metaResp := .ok (goodMeta 200),
    artifactNet := netOk,
    sys := fun _ _ => .completed 0 "abcd1234  file\n" "" }

/-- An environment whose checksum command exits with code 1. -/
def env_rc1 : Env :=
  { metaResp := .ok (goodMeta 200),
    artifactNet := netOk,
    sys := fun _ _ => .completed 1 "" "boom" }

/-- An environment whose checksum command exceeds its timeout. -/
def env_slow : Env :=
  { metaResp := .ok (goodMeta 200),
    artifactNet := netOk,
    sys := fun _ _ => .timedOut }

/-! ### Lemmas about the Python split model -/

/-- `str.split` never yields an empty list. -/
theorem pySplit_ne_nil (sep : Char) (s : List Char) : pySplit sep s ≠ [] := by
  induction s with
  | nil => simp [pySplit]
  | cons c cs ih =>
    simp only [pySplit]
    split
    · simp
    · cases h : pySplit sep cs with
      | nil => simp
      | cons t ts => simp [h]

/-- Splitting a string without the separator yields the string alone. -/
theorem pySplit_no_sep (sep : Char) (s : List Char) (h : sep ∉ s) :
    pySplit sep s = [s] := by
  induction s with
  | nil => rfl
  | cons c cs ih =>
    simp only [List.mem_cons, not_or] at h
    have hc : ¬ c = sep := fun hh => h.1 hh.symm
    simp only [pySplit, if_neg hc, ih h.2]

/-- The first split field of `hash ++ sep :: rest` is `hash` when `hash` is
free of the separator. -/
theorem pySplit_head (sep : Char) (hash rest : List Char) (h : sep ∉ hash) :
    (pySplit sep (hash ++ sep :: rest)).headD [] = hash := by
  induction hash with
  | nil => simp [pySplit]
  | cons c cs ih =>
    simp only [List.mem_cons, not_or] at h
    have hc : ¬ c = sep := fun hh => h.1 hh.symm
    have ihh := ih h.2
    simp only [List.cons_append, pySplit, if_neg hc]
    cases hs : pySplit sep (cs ++ sep :: rest) with
    | nil => exact absurd hs (pySplit_ne_nil sep _)
    | cons t ts =>
      rw [hs] at ihh
      simp only [List.headD_cons] at ihh ⊢
      rw [ihh]

/-- A string containing the separator splits into at least two fields. -/
theorem pySplit_length_two (sep : Char) (s : List Char) (h : sep ∈ s) :
    2 ≤ (pySplit sep s).length := by
  induction s with
  | nil => simp at h
  | cons c cs ih =>
    simp only [pySplit]
    by_cases hc : c = sep
    · rw [if_pos hc]
      have h1 : 1 ≤ (pySplit sep cs).length :=
        List.length_pos.mpr (pySplit_ne_nil sep cs)
      simp only [List.length_cons]
      omega
    · rw [if_neg hc]
      have hmem : sep ∈ cs := by
        rcases List.mem_cons.mp h with h1 | h1
        · exact absurd h1.symm hc
        · exact h1
      have ihh := ih hmem
      cases hs : pySplit sep cs with
      | nil => exact absurd hs (pySplit_ne_nil sep _)
      | cons t ts =>
        rw [hs] at ihh
        simp only [List.length_cons] at ihh ⊢
        omega

/-- The last split field of `xs ++ sep :: seg` is `seg` when `seg` is free
of the separator. -/
theorem pySplit_getLast (sep : Char) (xs seg : List Char) (h : sep ∉ seg) :
    (pySplit sep (xs ++ sep :: seg)).getLastD [] = seg := by
  induction xs with
  | nil =>
    simp only [List.nil_append, pySplit, if_pos rfl]
    rw [pySplit_no_sep sep seg h]
    rfl
  | cons c cs ih =>
    simp only [List.cons_append, pySplit]
    by_cases hc : c = sep
    · rw [if_pos hc]
      cases hs : pySplit sep (cs ++ sep :: seg) with
      | nil => exact absurd hs (pySplit_ne_nil sep _)
      | cons t ts =>
        rw [hs] at ih
        simp only [List.getLastD_cons] at ih ⊢
        exact ih
    · rw [if_neg hc]
      have hlen := pySplit_length_two sep (cs ++ sep :: seg) (by simp)
      cases hs : pySplit sep (cs ++ sep :: seg) with
      | nil => exact absurd hs (pySplit_ne_nil sep _)
      | cons t ts =>
        rw [hs] at ih hlen
        cases ts with
        | nil => simp at hlen
        | cons t2 ts2 =>
          simp only [List.getLastD_cons] at ih ⊢
          exact ih

/-- Converting a character list to a string and back is the identity. -/
theorem toList_asString (l : List Char) : (List.asString l).toList = l := rfl

/-- `String.toList` distributes over append. -/
theorem toList_append (s t : String) : (s ++ t).toList = s.toList ++ t.toList := by
  simp [String.toList]

/-! ### Behavior of one loop iteration -/

/-- When the artifact endpoint answers and the checksum command completes
with a non-zero code, the iteration raises `ReturncodeNonZeroError` around
the completed process, with the output streams captured exactly when the
run was quiet. -/
theorem processExt_nonzero (args : Args) (env : Env) (name ext : String)
    (fs : FileSystem) (resp : Response) (rc : Int) (out errS : String)
    (hnet : env.artifactNet (buildUrl name ext) = .ok resp)
    (hsys : env.sys (get_checksum_cmd args.user (downloadFilename (buildUrl name ext)))
      args.timeout = .completed rc out errS)
    (hrc : rc ≠ 0) :
    processExt args env name ext fs = .error (.returncodeNonZero
      { args := get_checksum_cmd args.user (downloadFilename (buildUrl name ext)),
        returncode := rc,
        stdout := if args.verbose ≠ 0 then none else some out,
        stderr := if args.verbose ≠ 0 then none else some errS }) := by
  by_cases hv : args.verbose = 0 <;>
    simp [processExt, download, hnet, getsize, run_optionally_verbose, hsys, hv, hrc]

/-- When the checksum command exceeds the timeout, the iteration raises
the timeout error carrying the command and the configured timeout. -/
theorem processExt_timeout (args : Args) (env : Env) (name ext : String)
    (fs : FileSystem) (resp : Response)
    (hnet : env.artifactNet (buildUrl name ext) = .ok resp)
    (hsys : env.sys (get_checksum_cmd args.user (downloadFilename (buildUrl name ext)))
      args.timeout = .timedOut) :
    processExt args env name ext fs = .error (.timeoutExpired
      (get_checksum_cmd args.user (downloadFilename (buildUrl name ext)))
      args.timeout) := by
  simp [processExt, download, hnet, getsize, run_optionally_verbose, hsys]

/-- In a verbose run whose checksum command succeeds, the iteration still
fails: the uncaptured stdout is `None` and `.decode` raises. -/
theorem processExt_verbose (args : Args) (env : Env) (name ext : String)
    (fs : FileSystem) (resp : Response) (out errS : String)
    (hv : args.verbose ≠ 0)
    (hnet : env.artifactNet (buildUrl name ext) = .ok resp)
    (hsys : env.sys (get_checksum_cmd args.user (downloadFilename (buildUrl name ext)))
      args.timeout = .completed 0 out errS) :
    processExt args env name ext fs = .error .attributeError := by
  simp [processExt, download, hnet, getsize, run_optionally_verbose, hsys, hv,
    checksumFromStdout]

/-- In a quiet run whose checksum command succeeds, the iteration renders
its row: the release name, the rendered filename, the first space-delimited
field of the captured stdout, and the byte length of the response body. -/
theorem processExt_success (args : Args) (env : Env) (name ext : String)
    (fs : FileSystem) (resp : Response) (out errS : String)
    (hv : args.verbose = 0)
    (hnet : env.artifactNet (buildUrl name ext) = .ok resp)
    (hsys : env.sys (get_checksum_cmd args.user (downloadFilename (buildUrl name ext)))
      args.timeout = .completed 0 out errS) :
    processExt args env name ext fs = .ok
      (fun n => if n = downloadFilename (buildUrl name ext)
        then some resp.content else fs n,
       { release := name,
         filename := "govready-q-" ++ name ++ ext,
         checksum := pyFirstSpaceField out,
         size := resp.content.length }) := by
  simp [processExt, download, hnet, getsize, run_optionally_verbose, hsys, hv,
    checksumFromStdout]

/-- Resolving the release name from a 200 response whose JSON carries
`html_url` yields the last `/` segment of that URL. -/
theorem resolveReleaseName_ok (metaResp : Except Unit MetaResponse)
    (r : MetaResponse) (html_url : String)
    (hm : metaResp = .ok r) (hs : r.status_code = 200)
    (hj : r.jsonBody = .ok (some html_url)) :
    resolveReleaseName metaResp = .ok (pyLastSegment html_url) := by
  simp [resolveReleaseName, hm, hs, hj]

/-! ### The claims -/

/-- C1 counterexample: the claim says a non-success status makes the fetch
signal a `DownloadError` rather than succeed or write the error body to the
local file.  Against an endpoint answering 404 with an error page body, the
`download` call nevertheless succeeds and the error page body is exactly
what lands in the local file `govready-q-1.2.3.zip`: line 122 never
inspects `downloaded_obj.status_code`. -/
theorem c1_counterexample :
    dlIsOk (download net404 emptyFS (buildUrl "1.2.3" ".zip")) = true ∧
    dlFileContent (download net404 emptyFS (buildUrl "1.2.3" ".zip"))
      "govready-q-1.2.3.zip" = some errorBody := by
  constructor <;> rfl

/-- C1 (amended): the fetch signals an error exactly when the network read
itself raises (the exception propagates); the response status is never
inspected, so for any response — success or not — the call succeeds and
writes the response body to the local file. -/
theorem c1_download_error_only_on_network_failure
    (net : String → Except Unit Response) (fs : FileSystem) (url : String) :
    (net url = .error () → download net fs url = .error .requestException) ∧
    (∀ resp, net url = .ok resp →
      ∃ fs2, download net fs url = .ok (downloadFilename url, fs2) ∧
        fs2 (downloadFilename url) = some resp.content) := by
  constructor
  · intro h
    simp [download, h]
  · intro resp h
    refine ⟨fun n => if n = downloadFilename url then some resp.content else fs n,
      ?_, ?_⟩
    · simp [download, h]
    · simp

/-- C1 witness: the amended theorem applied to the concrete 404 endpoint. -/
theorem c1_witness :
    ∃ fs2, download net404 emptyFS (buildUrl "1.2.3" ".zip") =
        .ok (downloadFilename (buildUrl "1.2.3" ".zip"), fs2) ∧
      fs2 (downloadFilename (buildUrl "1.2.3" ".zip")) =
        some (Response.content { status_code := 404, content := errorBody }) :=
  (c1_download_error_only_on_network_failure net404 emptyFS
    (buildUrl "1.2.3" ".zip")).2 { status_code := 404, content := errorBody } rfl

/-- C2 counterexample: the claim says a non-success metadata status makes
the resolver signal a `MetadataFetchError` carrying that status.  In fact
line 143 only prints a note; `release_info` stays unbound and line 146
raises the unbound-local error — an identical diagnostic for a 404 and a
500, so no status is carried, and no dedicated metadata error exists. -/
theorem c2_counterexample :
    bodyErr (mainBody defaultArgs (metaEnv 404) emptyFS) = some .unboundLocal ∧
    bodyErr (mainBody defaultArgs (metaEnv 500) emptyFS) = some .unboundLocal := by
  constructor <;> rfl

/-- C2 (amended): when the metadata endpoint answers with a non-success
status, the run aborts before any artifact download with exit code 1, but
via the catch-all handler around the unbound `release_info` access, not via
a dedicated error carrying the status: the outcome does not depend on the
artifact endpoint at all. -/
theorem c2_non_success_metadata_aborts
    (args : Args) (env : Env) (fs : FileSystem) (r : MetaResponse)
    (hm : env.metaResp = .ok r) (hs : r.status_code ≠ 200) :
    mainBody args env fs = .error .unboundLocal ∧
    mainExit args env fs = 1 ∧
    (∀ net2, mainBody args { env with artifactNet := net2 } fs =
      .error .unboundLocal) := by
  have hres : resolveReleaseName env.metaResp = .error .unboundLocal := by
    simp [resolveReleaseName, hm, hs]
  refine ⟨?_, ?_, ?_⟩
  · simp [mainBody, hres]
  · simp [mainExit, mainBody, hres, handleError]
  · intro net2
    simp [mainBody, hres]

/-- C2 witness: the amended theorem applied to a 404 metadata answer. -/
theorem c2_witness :
    mainBody defaultArgs (metaEnv 404) emptyFS = .error .unboundLocal ∧
    mainExit defaultArgs (metaEnv 404) emptyFS = 1 :=
  ⟨(c2_non_success_metadata_aborts defaultArgs (metaEnv 404) emptyFS
      (goodMeta 404) rfl (by decide)).1,
   (c2_non_success_metadata_aborts defaultArgs (metaEnv 404) emptyFS
      (goodMeta 404) rfl (by decide)).2.1⟩

/-- C3: whenever the checksum command completes with a non-zero exit code,
the run raises `ReturncodeNonZeroError` whose payload is the original
completed process — the command, the exit code and the captured output —
no row is rendered for that artifact, and the run exits with code 1. -/
theorem c3_nonzero_checksum_aborts
    (args : Args) (env : Env) (fs : FileSystem) (r : MetaResponse)
    (html_url : String) (resp : Response) (rc : Int) (out errS : String)
    (hm : env.metaResp = .ok r) (hs : r.status_code = 200)
    (hj : r.jsonBody = .ok (some html_url))
    (hnet : ∀ u, env.artifactNet u = .ok resp)
    (hsys : ∀ c t, env.sys c t = .completed rc out errS)
    (hrc : rc ≠ 0) :
    mainBody args env fs = .error (.returncodeNonZero
      { args := get_checksum_cmd args.user
          (downloadFilename (buildUrl (pyLastSegment html_url) ".zip")),
        returncode := rc,
        stdout := if args.verbose ≠ 0 then none else some out,
        stderr := if args.verbose ≠ 0 then none else some errS }) ∧
    mainExit args env fs = 1 := by
  have hname := resolveReleaseName_ok env.metaResp r html_url hm hs hj
  have h1 := processExt_nonzero args env (pyLastSegment html_url) ".zip" fs resp
    rc out errS (hnet _) (hsys _ _) hrc
  constructor
  · simp [mainBody, hname, extensions, processExts, h1]
  · simp [mainExit, mainBody, hname, extensions, processExts, h1, handleError]

/-- C3 witness: the theorem applied to a run whose checksum command exits
with code 1. -/
theorem c3_witness :
    mainBody defaultArgs env_rc1 emptyFS = .error (.returncodeNonZero
      { args := get_checksum_cmd defaultArgs.user
          (downloadFilename (buildUrl
            (pyLastSegment "https://github.com/x/y/releases/tag/1.2.3") ".zip")),
        returncode := 1,
        stdout := if defaultArgs.verbose ≠ 0 then none else some "",
        stderr := if defaultArgs.verbose ≠ 0 then none else some "boom" }) ∧
    mainExit defaultArgs env_rc1 emptyFS = 1 :=
  c3_nonzero_checksum_aborts defaultArgs env_rc1 emptyFS (goodMeta 200)
    "https://github.com/x/y/releases/tag/1.2.3"
    { status_code := 200, content := artifactBody } 1 "" "boom"
    rfl rfl rfl (fun _ => rfl) (fun _ _ => rfl) (by decide)

/-- C4 counterexample: the remediation printed after a timeout is
`max(args.timeout + 120, 600)`; at the default timeout of 120 seconds it
suggests 600, not the 360 that doubling-plus-120 would give. -/
theorem c4_counterexample :
    timeoutSuggestion 120 = 600 ∧ 2 * 120 + 120 = 360 ∧
    timeoutSuggestion 120 ≠ 2 * 120 + 120 := by
  refine ⟨rfl, rfl, ?_⟩
  decide

/-- C4 (amended): a checksum invocation exceeding the caller-supplied
timeout terminates the run fatally with exit code 1, and the diagnostic
embeds the configured timeout value; the printed remediation however
suggests `max(timeout + 120, 600)` seconds, not doubling plus 120. -/
theorem c4_timeout_fatal
    (args : Args) (env : Env) (fs : FileSystem) (r : MetaResponse)
    (html_url : String) (resp : Response)
    (hm : env.metaResp = .ok r) (hs : r.status_code = 200)
    (hj : r.jsonBody = .ok (some html_url))
    (hnet : ∀ u, env.artifactNet u = .ok resp)
    (hsys : ∀ c t, env.sys c t = .timedOut) :
    mainBody args env fs = .error (.timeoutExpired
      (get_checksum_cmd args.user
        (downloadFilename (buildUrl (pyLastSegment html_url) ".zip")))
      args.timeout) ∧
    mainExit args env fs = 1 ∧
    (∀ cmdDisplay, ∃ pre post,
      timeoutFatalMessage cmdDisplay args.timeout =
        pre ++ toString args.timeout ++ post) ∧
    timeoutSuggestion args.timeout = max (args.timeout + 120) 600 := by
  have hname := resolveReleaseName_ok env.metaResp r html_url hm hs hj
  have h1 := processExt_timeout args env (pyLastSegment html_url) ".zip" fs resp
    (hnet _) (hsys _ _)
  refine ⟨?_, ?_, ?_, rfl⟩
  · simp [mainBody, hname, extensions, processExts, h1]
  · simp [mainExit, mainBody, hname, extensions, processExts, h1, handleError]
  · intro cmdDisplay
    refine ⟨"\n\nFatal error, exiting: external program or script " ++ cmdDisplay ++
      " took longer than ", ".0 seconds.\n\n", ?_⟩
    simp [timeoutFatalMessage, String.append_assoc]

/-- C4 witness: the amended theorem applied to a run whose checksum command
times out at the default 120-second timeout. -/
theorem c4_witness :
    mainBody defaultArgs env_slow emptyFS = .error (.timeoutExpired
      (get_checksum_cmd defaultArgs.user
        (downloadFilename (buildUrl
          (pyLastSegment "https://github.com/x/y/releases/tag/1.2.3") ".zip")))
      defaultArgs.timeout) ∧
    mainExit defaultArgs env_slow emptyFS = 1 :=
  ⟨(c4_timeout_fatal defaultArgs env_slow emptyFS (goodMeta 200)
      "https://github.com/x/y/releases/tag/1.2.3"
      { status_code := 200, content := artifactBody }
      rfl rfl rfl (fun _ => rfl) (fun _ _ => rfl)).1,
   (c4_timeout_fatal defaultArgs env_slow emptyFS (goodMeta 200)
      "https://github.com/x/y/releases/tag/1.2.3"
      { status_code := 200, content := artifactBody }
      rfl rfl rfl (fun _ => rfl) (fun _ _ => rfl)).2.1⟩

/-- C5: for a successful (status 200) metadata response whose JSON body
carries `html_url`, the resolved release identifier is the last
`/`-delimited segment of that URL: when the URL decomposes as
`pre ++ "/" ++ seg` with no slash in `seg`, the resolver returns exactly
`seg`. -/
theorem c5_release_name_is_last_segment
    (env : Env) (r : MetaResponse) (html_url : String) (pre seg : List Char)
    (hm : env.metaResp = .ok r) (hs : r.status_code = 200)
    (hj : r.jsonBody = .ok (some html_url))
    (hsplit : html_url.toList = pre ++ '/' :: seg) (hseg : '/' ∉ seg) :
    resolveReleaseName env.metaResp = .ok (pyLastSegment html_url) ∧
    resolveReleaseName env.metaResp = .ok seg.asString := by
  have h0 := resolveReleaseName_ok env.metaResp r html_url hm hs hj
  refine ⟨h0, ?_⟩
  rw [h0]
  unfold pyLastSegment
  rw [hsplit, pySplit_getLast _ _ _ hseg]

/-- C5 witness: the theorem applied to the release page URL of the spec
end-to-end scenario, resolving `1.2.3`. -/
theorem c5_witness :
    resolveReleaseName (metaEnv 200).metaResp = .ok "1.2.3" :=
  (c5_release_name_is_last_segment (metaEnv 200) (goodMeta 200)
    "https://github.com/x/y/releases/tag/1.2.3"
    "https://github.com/x/y/releases/tag".toList "1.2.3".toList
    rfl rfl rfl (by decide) (by decide)).2

/-- C6: the loop processes exactly the extensions `.zip` then `.tar.gz` in
that order; each download URL is the fixed base followed by the release
identifier and the extension; and the local filename is `govready-q-`
followed by the last path segment of the URL with every space replaced by
an underscore — for identifiers and extensions free of slashes that
segment is exactly the identifier followed by the extension. -/
theorem c6_url_and_filename
    (release_name ext : String)
    (hn : '/' ∉ release_name.toList) (he : '/' ∉ ext.toList) :
    extensions = [".zip", ".tar.gz"] ∧
    buildUrl release_name ext = RELEASE_TAG_URL ++ release_name ++ ext ∧
    downloadFilename (buildUrl release_name ext) =
      "govready-q-" ++
        (pyReplace ' ' '_' (release_name.toList ++ ext.toList)).asString := by
  refine ⟨rfl, rfl, ?_⟩
  have hbase : RELEASE_TAG_URL.toList =
      "https://github.com/GovReady/govready-q/archive/refs/tags".toList ++
        ['/'] := by decide
  have hurl : (buildUrl release_name ext).toList =
      "https://github.com/GovReady/govready-q/archive/refs/tags".toList ++
        '/' :: (release_name.toList ++ ext.toList) := by
    rw [buildUrl, toList_append, toList_append, hbase]
    simp [List.append_assoc]
  have hseg : pyLastSegment (buildUrl release_name ext) =
      (release_name.toList ++ ext.toList).asString := by
    unfold pyLastSegment
    rw [hurl, pySplit_getLast]
    simp only [List.mem_append, not_or]
    exact ⟨hn, he⟩
  unfold downloadFilename
  rw [hseg, toList_asString]

/-- C6 witness: the theorem applied to a release name containing a space,
also checking the rendered concrete filename. -/
theorem c6_witness :
    downloadFilename (buildUrl "v 1.0" ".zip") =
      "govready-q-" ++
        (pyReplace ' ' '_' ("v 1.0".toList ++ ".zip".toList)).asString ∧
    downloadFilename (buildUrl "v 1.0" ".zip") = "govready-q-v_1.0.zip" :=
  ⟨(c6_url_and_filename "v 1.0" ".zip" (by decide) (by decide)).2.2, by decide⟩

/-- C7: for checksum-command stdout of the shape hash, space, rest — which
covers `<hash>  <filename>\n` and every trailing-whitespace variation — the
extracted checksum is exactly the hash: the substring of the decoded output
before the first space, which for such outputs is also the first
whitespace-delimited token. -/
theorem c7_checksum_first_token
    (hash rest : List Char) (hh : ' ' ∉ hash) :
    checksumFromStdout (some (hash ++ ' ' :: rest).asString) =
      .ok hash.asString := by
  simp only [checksumFromStdout, pyFirstSpaceField, toList_asString]
  rw [pySplit_head _ _ _ hh]

/-- C7 witness: the theorem applied to the scenario output
`abcd1234  govready-q-1.2.3.zip\n`, extracting `abcd1234`. -/
theorem c7_witness :
    checksumFromStdout
      (some ("abcd1234".toList ++ ' ' :: " govready-q-1.2.3.zip\n".toList).asString) =
      .ok "abcd1234" :=
  c7_checksum_first_token "abcd1234".toList " govready-q-1.2.3.zip\n".toList
    (by decide)

/-- C8: every successful artifact download leaves the local file in place
with exactly the downloaded payload as content, and the size subsequently
reported from filesystem metadata equals the byte length of that
payload. -/
theorem c8_download_writes_exact_bytes
    (net : String → Except Unit Response) (fs : FileSystem) (url : String)
    (resp : Response) (h : net url = .ok resp) :
    ∃ fs2, download net fs url = .ok (downloadFilename url, fs2) ∧
      fs2 (downloadFilename url) = some resp.content ∧
      getsize fs2 (downloadFilename url) = .ok resp.content.length := by
  refine ⟨fun n => if n = downloadFilename url then some resp.content else fs n,
    ?_, ?_, ?_⟩
  · simp [download, h]
  · simp
  · simp [getsize]

/-- C8 witness: the theorem applied to a concrete download. -/
theorem c8_witness :
    ∃ fs2, download netOk emptyFS (buildUrl "1.2.3" ".tar.gz") =
        .ok (downloadFilename (buildUrl "1.2.3" ".tar.gz"), fs2) ∧
      fs2 (downloadFilename (buildUrl "1.2.3" ".tar.gz")) =
        some (Response.content { status_code := 200, content := artifactBody }) ∧
      getsize fs2 (downloadFilename (buildUrl "1.2.3" ".tar.gz")) =
        .ok (Response.content { status_code := 200, content := artifactBody }).length :=
  c8_download_writes_exact_bytes netOk emptyFS (buildUrl "1.2.3" ".tar.gz")
    { status_code := 200, content := artifactBody } rfl

/-- C9: the interrupt handler exits 0 whatever the signal number and the
stack frame the interrupt lands in, so an interrupted run exits 0; an
uninterrupted run exits 0 when the pipeline succeeds, and 1 on every
classified error — the catch-all clause included, since every `PyError`
maps to exit code 1. -/
theorem c9_exit_codes (args : Args) (env : Env) (fs : FileSystem) :
    (∀ (Frame : Type) (n : Nat) (frame : Frame), sigintHandlerExit n frame = 0) ∧
    processExitCode true args env fs = 0 ∧
    (∀ res, mainBody args env fs = .ok res →
      processExitCode false args env fs = 0) ∧
    (∀ e, mainBody args env fs = .error e →
      processExitCode false args env fs = 1) := by
  refine ⟨fun _ _ _ => rfl, rfl, ?_, ?_⟩
  · intro res h
    simp [processExitCode, mainExit, h]
  · intro e h
    show mainExit args env fs = 1
    simp only [mainExit, h]
    cases e <;> rfl

/-- C9 witness: the theorem applied to an interrupted run, a fully
successful run, and a run aborted by the catch-all clause. -/
theorem c9_witness :
    processExitCode true defaultArgs env_ok emptyFS = 0 ∧
    processExitCode false defaultArgs env_ok emptyFS = 0 ∧
    processExitCode false defaultArgs (metaEnv 404) emptyFS = 1 :=
  ⟨(c9_exit_codes defaultArgs env_ok emptyFS).2.1,
   (c9_exit_codes defaultArgs env_ok emptyFS).2.2.1 _ rfl,
   (c9_exit_codes defaultArgs (metaEnv 404) emptyFS).2.2.2 .unboundLocal rfl⟩

/-- C10: with the verbose flag set, the runner pipes nothing, so the
returned result carries no captured stdout; a verbose iteration that
reaches checksum extraction therefore fails with the attribute error,
which only the catch-all clause handles, exiting 1 — and conversely, an
iteration that did render a row must have run in quiet mode. -/
theorem c10_verbose_never_renders
    (args : Args) (env : Env) (name ext : String) (fs : FileSystem) :
    (∀ cmd rc out errS, args.verbose ≠ 0 →
      env.sys cmd args.timeout = .completed rc out errS →
      run_optionally_verbose env.sys cmd args.timeout args.verbose =
        .ok { args := cmd, returncode := rc, stdout := none, stderr := none }) ∧
    (∀ resp out errS, args.verbose ≠ 0 →
      env.artifactNet (buildUrl name ext) = .ok resp →
      env.sys (get_checksum_cmd args.user (downloadFilename (buildUrl name ext)))
        args.timeout = .completed 0 out errS →
      processExt args env name ext fs = .error .attributeError) ∧
    handleError .attributeError = 1 ∧
    (∀ fs2 row, processExt args env name ext fs = .ok (fs2, row) →
      args.verbose = 0) := by
  refine ⟨?_, ?_, rfl, ?_⟩
  · intro cmd rc out errS hv hsys
    simp [run_optionally_verbose, hsys, hv]
  · intro resp out errS hv hnet hsys
    exact processExt_verbose args env name ext fs resp out errS hv hnet hsys
  · intro fs2 row h
    by_contra hv
    cases hn : env.artifactNet (buildUrl name ext) with
    | error u =>
        rw [processExt] at h
        simp [download, hn] at h
    | ok resp =>
        cases hsys : env.sys
            (get_checksum_cmd args.user (downloadFilename (buildUrl name ext)))
            args.timeout with
        | timedOut =>
            have ht := processExt_timeout args env name ext fs resp hn hsys
            rw [ht] at h
            simp at h
        | completed rc out errS =>
            by_cases hrc : rc = 0
            · subst hrc
              have hvp := processExt_verbose args env name ext fs resp out errS
                hv hn hsys
              rw [hvp] at h
              simp at h
            · have hnz := processExt_nonzero args env name ext fs resp rc out errS
                hn hsys hrc
              rw [hnz] at h
              simp at h

/-- C10 witness: a verbose run of one iteration against a working
environment fails with the attribute error instead of rendering. -/
theorem c10_witness :
    processExt verboseArgs env_ok "1.2.3" ".zip" emptyFS =
      .error .attributeError :=
  (c10_verbose_never_renders verboseArgs env_ok "1.2.3" ".zip" emptyFS).2.1
    { status_code := 200, content := artifactBody } "abcd1234  file\n" ""
    (by decide) rfl rfl

end ReleaseGrq
